import Mathlib

/-!
Shallow embedding of the attio-mcp repository's core logic
(src/attio_mcp/attio_client.py and src/attio_mcp/server.py).

JSON payloads are modelled by the inductive `JValue`; Python truthiness of
filter fragments by `pyTruthy`; `datetime.date` by `PyDate` together with
`dateFromIso` (date.fromisoformat restricted to the YYYY-MM-DD form the
client documents; Python's exact parse-error messages are abbreviated, no
claim inspects them).  HTTP interaction is modelled by passing the remote
response (status, raw text, parsed body) explicitly to the pure
response-handling part of each client method.
-/

/-- A JSON value, as produced by the Python client's dict/list literals. -/
inductive JValue where
  | null : JValue
  | bool : Bool → JValue
  | num : Int → JValue
  | str : String → JValue
  | arr : List JValue → JValue
  | obj : List (String × JValue) → JValue

/-- Python truthiness for the values appearing in filter lists
(None is modelled by `Option.none` at the call sites; an empty dict/list/str
and the number 0 are falsy). -/
def pyTruthy : JValue → Bool
  | .null => false
  | .bool b => b
  | .num n => n != 0
  | .str s => !s.isEmpty
  | .arr xs => !xs.isEmpty
  | .obj fs => !fs.isEmpty

/-- The list comprehension `[f for f in filters if f]` of
`AttioClient._build_search_payload` (attio_client.py line 49). -/
def activeFilters (filters : List (Option JValue)) : List JValue :=
  filters.filterMap fun f =>
    match f with
    | some v => if pyTruthy v then some v else none
    | none => none

/-- `AttioClient._build_search_payload` (attio_client.py lines 34-58):
start from `{"limit": limit}`; add no filter key when no filter is active,
the single active filter unwrapped when exactly one is active, and
`{"$and": active_filters}` when more than one is active. -/
def buildSearchPayload (filters : List (Option JValue)) (limit : Int) : JValue :=
  match activeFilters filters with
  | [] => .obj [("limit", .num limit)]
  | [f] => .obj [("limit", .num limit), ("filter", f)]
  | active => .obj [("limit", .num limit), ("filter", .obj [("$and", .arr active)])]

/-- Key lookup in an object value (Python `payload.get(key)`). -/
def lookupField (v : JValue) (key : String) : Option JValue :=
  match v with
  | .obj fs => fs.lookup key
  | _ => none

/-- `datetime.date`: a calendar date. -/
structure PyDate where
  year : Nat
  month : Nat
  day : Nat
deriving DecidableEq, Repr

/-- Python date comparison: lexicographic on (year, month, day). -/
def PyDate.ltB (a b : PyDate) : Bool :=
  a.year < b.year ||
    (a.year == b.year &&
      (a.month < b.month || (a.month == b.month && a.day < b.day)))

/-- `a <= b` on dates. -/
def PyDate.leB (a b : PyDate) : Bool := !PyDate.ltB b a

def isLeapYear (y : Nat) : Bool :=
  y % 4 == 0 && (y % 100 != 0 || y % 400 == 0)

def daysInMonth (y m : Nat) : Nat :=
  if m = 2 then (if isLeapYear y then 29 else 28)
  else if m = 4 ∨ m = 6 ∨ m = 9 ∨ m = 11 then 30
  else 31

/-- Split a character list on a separator character. -/
def splitOnChar (c : Char) : List Char → List (List Char)
  | [] => [[]]
  | x :: xs =>
    let r := splitOnChar c xs
    if x == c then [] :: r
    else
      match r with
      | y :: ys => (x :: y) :: ys
      | [] => [[x]]

/-- Read a nonempty all-digit character list as a decimal number. -/
def digitsToNat? (cs : List Char) : Option Nat :=
  if cs.isEmpty ∨ ¬cs.all (·.isDigit) then none
  else some (cs.foldl (fun a c => a * 10 + (c.toNat - 48)) 0)

/-- `datetime.date.fromisoformat` on the documented YYYY-MM-DD form:
parse three dash-separated fixed-width digit groups and validate the
calendar ranges (year 1-9999, month 1-12, day 1-days-in-month). -/
def dateFromIso (s : String) : Except String PyDate :=
  match splitOnChar '-' s.data with
  | [ys, ms, ds] =>
    if ys.length = 4 ∧ ms.length = 2 ∧ ds.length = 2 then
      match digitsToNat? ys, digitsToNat? ms, digitsToNat? ds with
      | some y, some m, some d =>
        if 1 ≤ y ∧ y ≤ 9999 ∧ 1 ≤ m ∧ m ≤ 12 ∧ 1 ≤ d ∧ d ≤ daysInMonth y m then
          .ok ⟨y, m, d⟩
        else .error ("date out of range: " ++ s)
      | _, _, _ => .error ("Invalid isoformat string: " ++ s)
    else .error ("Invalid isoformat string: " ++ s)
  | _ => .error ("Invalid isoformat string: " ++ s)

/-- Left-pad a decimal rendering with zeros. -/
def padNat (n width : Nat) : String :=
  let s := toString n
  String.mk (List.replicate (width - s.length) '0') ++ s

/-- `date.isoformat()`: render back to YYYY-MM-DD. -/
def PyDate.isoformat (d : PyDate) : String :=
  padNat d.year 4 ++ "-" ++ padNat d.month 2 ++ "-" ++ padNat d.day 2

/-- The `name_filter` fragment of `search_companies` (attio_client.py
line 149); `if name` is Python truthiness on an optional string. -/
def nameFilter (name : Option String) : Option JValue :=
  match name with
  | some n => if n = "" then none else some (.obj [("name", .obj [("$contains", .str n)])])
  | none => none

/-- The `domain_filter` fragment (line 150). -/
def domainFilter (domain : Option String) : Option JValue :=
  match domain with
  | some d =>
    if d = "" then none
    else some (.obj [("domains", .obj [("domain", .obj [("$eq", .str d)])])])
  | none => none

/-- The `owner_filter` fragment (lines 151-160). -/
def ownerFilter (owner_id : Option String) : Option JValue :=
  match owner_id with
  | some o =>
    if o = "" then none
    else some (.obj [("owner", .obj
      [("referenced_actor_type", .str "workspace-member"),
       ("referenced_actor_id", .str o)])])
  | none => none

/-- The `reminder_filter` fragment (lines 161-168): one field-level object
keyed "reminder", holding a `$gte` entry when a start date is present and a
`$lte` entry when an end date is present. -/
def reminderFilter (startDate endDate : Option PyDate) : Option JValue :=
  match startDate, endDate with
  | none, none => none
  | some a, none => some (.obj [("reminder", .obj [("$gte", .str a.isoformat)])])
  | none, some b => some (.obj [("reminder", .obj [("$lte", .str b.isoformat)])])
  | some a, some b =>
    some (.obj [("reminder", .obj
      [("$gte", .str a.isoformat), ("$lte", .str b.isoformat)])])

/-- `date.fromisoformat` lifted to the optional arguments of
`search_companies` (lines 126-132). -/
def parseOptDate (s : Option String) : Except String (Option PyDate) :=
  match s with
  | none => .ok none
  | some v =>
    match dateFromIso v with
    | .ok d => .ok (some d)
    | .error e => .error e

/-- The date-range validation of `search_companies` (lines 134-139). -/
def reminderRangeInvalid (startDate endDate : Option PyDate) : Bool :=
  match startDate, endDate with
  | some a, some b => PyDate.ltB b a
  | _, _ => false

/-- The pure prefix of `AttioClient.search_companies` (attio_client.py
lines 103-172): parse the optional reminder bounds, validate the range, and
build the POST payload.  An `Except.error` is raised before any payload
exists and before the HTTP request of line 175 is issued; an `Except.ok`
carries the body that would be POSTed. -/
def searchCompanies (name domain owner_id reminder_start reminder_end : Option String)
    (limit : Int) : Except String JValue :=
  match parseOptDate reminder_start with
  | .error e => .error e
  | .ok startDate =>
    match parseOptDate reminder_end with
    | .error e => .error e
    | .ok endDate =>
      if reminderRangeInvalid startDate endDate then
        .error "reminder_start must be <= reminder_end"
      else
        .ok (buildSearchPayload
          [nameFilter name, domainFilter domain, ownerFilter owner_id,
           reminderFilter startDate endDate] limit)

/-- A remote HTTP response: status code, raw body text (as used in error
messages), and the parsed JSON body (as returned by `response.json()`). -/
structure HttpResponse where
  status : Nat
  text : String
  body : JValue

/-- httpx success test: `raise_for_status` raises exactly for non-2xx. -/
def isSuccess (status : Nat) : Bool := 200 ≤ status && status ≤ 299

/-- Response handling shared by `search_companies`, `search_people` and
`list_workspace_members` (attio_client.py lines 174-186, 256-268, 360-373):
return the parsed body on success, raise the generic API error carrying the
numeric status and the raw body otherwise. -/
def queryResponse (resp : HttpResponse) : Except String JValue :=
  if isSuccess resp.status then .ok resp.body
  else .error ("Attio API error: " ++ toString resp.status ++ " - " ++ resp.text)

/-- Response handling of `AttioClient.get_company_details` (attio_client.py
lines 204-219): 404 becomes a specific not-found error naming the id, any
other non-2xx the generic API error. -/
def getCompanyDetails (company_id : String) (resp : HttpResponse) : Except String JValue :=
  if isSuccess resp.status then .ok resp.body
  else if resp.status = 404 then .error ("Company not found: " ++ company_id)
  else .error ("Attio API error: " ++ toString resp.status ++ " - " ++ resp.text)

/-- Response handling of `AttioClient.get_person_details` (lines 285-300). -/
def getPersonDetails (person_id : String) (resp : HttpResponse) : Except String JValue :=
  if isSuccess resp.status then .ok resp.body
  else if resp.status = 404 then .error ("Person not found: " ++ person_id)
  else .error ("Attio API error: " ++ toString resp.status ++ " - " ++ resp.text)

/-- Response handling of `AttioClient.get_workspace_member` (lines 331-346). -/
def getWorkspaceMember (member_id : String) (resp : HttpResponse) : Except String JValue :=
  if isSuccess resp.status then .ok resp.body
  else if resp.status = 404 then .error ("Workspace member not found: " ++ member_id)
  else .error ("Attio API error: " ++ toString resp.status ++ " - " ++ resp.text)

/-- Response handling of `AttioClient._get_notes` (attio_client.py lines
76-101): on 404 return the empty collection instead of raising; any other
non-2xx raises the generic API error. -/
def getNotes (parent_object parent_record_id entity_name : String)
    (resp : HttpResponse) : Except String JValue :=
  if isSuccess resp.status then .ok resp.body
  else if resp.status = 404 then .ok (.obj [("data", .arr [])])
  else .error ("Attio API error: " ++ toString resp.status ++ " - " ++ resp.text)

/-- `AttioClient.get_company_notes` (lines 224-234). -/
def getCompanyNotes (company_id : String) (resp : HttpResponse) : Except String JValue :=
  getNotes "companies" company_id "company" resp

/-- `AttioClient.get_person_notes` (lines 305-315). -/
def getPersonNotes (person_id : String) (resp : HttpResponse) : Except String JValue :=
  getNotes "people" person_id "person" resp

/-- `AttioClient.search_people` payload (attio_client.py lines 236-254):
two optional fragments, name then email, no validation step. -/
def searchPeople (query : String) (email : Option String) (limit : Int) : JValue :=
  buildSearchPayload
    [nameFilter (some query),
     (match email with
      | some e =>
        if e = "" then none
        else some (.obj [("email_addresses", .obj
          [("email_address", .obj [("$eq", JValue.str e)])])])
      | none => none)] limit

/-- Escape a character for a JSON string literal (quote and backslash; the
control-character escapes of `json.dumps` are not exercised by any claim). -/
def escapeJsonChar (c : Char) : String :=
  if c = '"' then "\\\""
  else if c = '\\' then "\\\\"
  else String.singleton c

def escapeJson (s : String) : String :=
  s.data.foldl (fun acc c => acc ++ escapeJsonChar c) ""

mutual

/-- `json.dumps`: serialize a `JValue` to JSON text.  The model emits the
compact form; the `indent=2` whitespace of the Python calls is immaterial to
every claim (which only distinguish JSON bodies from "Error: " strings). -/
def jsonDumps : JValue → String
  | .null => "null"
  | .bool true => "true"
  | .bool false => "false"
  | .num n => toString n
  | .str s => "\"" ++ escapeJson s ++ "\""
  | .arr xs => "[" ++ jsonDumpsArr xs ++ "]"
  | .obj fs => "\x7b" ++ jsonDumpsObj fs ++ "\x7d"

def jsonDumpsArr : List JValue → String
  | [] => ""
  | [x] => jsonDumps x
  | x :: y :: xs => jsonDumps x ++ ", " ++ jsonDumpsArr (y :: xs)

def jsonDumpsObj : List (String × JValue) → String
  | [] => ""
  | [(k, v)] => "\"" ++ escapeJson k ++ "\": " ++ jsonDumps v
  | (k, v) :: f :: fs =>
    "\"" ++ escapeJson k ++ "\": " ++ jsonDumps v ++ ", " ++ jsonDumpsObj (f :: fs)

end

/-- The shared try/except shape of every tool in server.py: a successful
client result is serialized as JSON text, a raised failure is caught and
returned as a string prefixed "Error: ". -/
def renderResult (r : Except String JValue) : String :=
  match r with
  | .ok v => jsonDumps v
  | .error e => "Error: " ++ e

/-- Tool `search_companies` (server.py lines 53-84).  `resp` is the remote
response to the query POST; a validation failure raises before it is used. -/
def searchCompaniesTool (name domain owner_id reminder_start reminder_end : Option String)
    (limit : Int) (resp : HttpResponse) : String :=
  renderResult ((searchCompanies name domain owner_id reminder_start reminder_end limit).bind
    fun _payload => queryResponse resp)

/-- Tool `get_company_details` (server.py lines 87-99). -/
def getCompanyDetailsTool (company_id : String) (resp : HttpResponse) : String :=
  renderResult (getCompanyDetails company_id resp)

/-- Tool `get_company_notes` (server.py lines 102-114). -/
def getCompanyNotesTool (company_id : String) (resp : HttpResponse) : String :=
  renderResult (getCompanyNotes company_id resp)

/-- Tool `search_people` (server.py lines 117-131). -/
def searchPeopleTool (query : String) (email : Option String) (limit : Int)
    (resp : HttpResponse) : String :=
  renderResult (queryResponse resp)

/-- Tool `get_person_details` (server.py lines 134-146). -/
def getPersonDetailsTool (person_id : String) (resp : HttpResponse) : String :=
  renderResult (getPersonDetails person_id resp)

/-- Tool `get_person_notes` (server.py lines 149-161). -/
def getPersonNotesTool (person_id : String) (resp : HttpResponse) : String :=
  renderResult (getPersonNotes person_id resp)

/-- Tool `get_workspace_member` (server.py lines 164-176). -/
def getWorkspaceMemberTool (member_id : String) (resp : HttpResponse) : String :=
  renderResult (getWorkspaceMember member_id resp)

/-- A workspace member as the server tools read it: the three string fields
accessed via `member.get(field, "")` (a missing field models as ""). -/
structure Member where
  first_name : String
  last_name : String
  email_address : String
deriving DecidableEq, Repr

/-- The serialized form of a member dict, restricted to the modelled fields. -/
def Member.toJValue (m : Member) : JValue :=
  .obj [("first_name", .str m.first_name),
        ("last_name", .str m.last_name),
        ("email_address", .str m.email_address)]

/-- Python `str.lower()` (character-wise lowering). -/
def strLower (s : String) : String := String.mk (s.data.map Char.toLower)

/-- Python `str.strip()`: drop whitespace from both ends. -/
def trimChars (cs : List Char) : List Char :=
  ((cs.dropWhile Char.isWhitespace).reverse.dropWhile Char.isWhitespace).reverse

def strTrim (s : String) : String := String.mk (trimChars s.data)

/-- `needle.isPrefixOf hay` on character lists. -/
def isPrefixB : List Char → List Char → Bool
  | [], _ => true
  | _ :: _, [] => false
  | a :: as, b :: bs => a == b && isPrefixB as bs

/-- `needle` occurs as a contiguous run of `hay`. -/
def isSubB : List Char → List Char → Bool
  | n, [] => n.isEmpty
  | n, h :: t => isPrefixB n (h :: t) || isSubB n t

/-- Python's `needle in hay` substring test. -/
def substrB (needle hay : String) : Bool := isSubB needle.data hay.data

/-- The local `matches` predicate of tool `list_workspace_members`
(server.py lines 213-223): strip each field, lower-case at match time, and
test the needle against first name, last name, the stripped
"first last" concatenation, and email (logical OR). -/
def memberMatches (needle : String) (m : Member) : Bool :=
  let first := strTrim m.first_name
  let last := strTrim m.last_name
  let email := strTrim m.email_address
  let full_name := strTrim (first ++ " " ++ last)
  substrB needle (strLower first) || substrB needle (strLower last) ||
    substrB needle (strLower full_name) || substrB needle (strLower email)

/-- Tool `list_workspace_members` (server.py lines 198-237).  `fetch` is the
outcome of the client call `attio_client.list_workspace_members()` followed
by `result.get("data", [])`; note the code performs that call and the
`contains` filter before it validates `limit`, and any exception raised in
the body is caught and rendered as an "Error: " string. -/
def listWorkspaceMembersTool (fetch : Except String (List Member)) (limit : Int)
    (contains : Option String) : String :=
  match fetch with
  | .error e => "Error: " ++ e
  | .ok members =>
    let members1 :=
      match contains with
      | some c => if c = "" then members else members.filter (memberMatches (strLower c))
      | none => members
    if limit < 0 then "Error: limit must be >= 0"
    else jsonDumps (.obj [("data", .arr ((members1.take limit.toNat).map Member.toJValue))])

/-- The per-member test of tool `search_workspace_member_by_email`
(server.py line 190). -/
def emailMatch (email : String) (m : Member) : Bool :=
  strLower m.email_address == strLower email

/-- Tool `search_workspace_member_by_email` (server.py lines 179-195):
return the first member whose email matches case-insensitively wrapped as
a "data" object, else a JSON "error" object (not a raised exception and not
an "Error: " string); a failing fetch is caught and rendered "Error: ". -/
def searchWorkspaceMemberByEmailTool (fetch : Except String (List Member))
    (email : String) : String :=
  match fetch with
  | .error e => "Error: " ++ e
  | .ok members =>
    match members.find? (emailMatch email) with
    | some m => jsonDumps (.obj [("data", m.toJValue)])
    | none =>
      jsonDumps (.obj [("error", .str ("No workspace member found with email: " ++ email))])

/-- Modelled from the spec: the repository has no `list_tasks` source under
src/ (only src/tests/test_list_tasks.py exercises it), so tasks are modelled
from spec sections 4.2/4.3: a task carries an optional deadline timestamp
(compared at date granularity). -/
structure CrmTask where
  task_id : String
  deadline_at : Option PyDate
deriving DecidableEq, Repr

/-- Modelled from the spec: the request `list_tasks` issues to
`GET /tasks?assignee=&limit=&offset=` (spec section 6). -/
structure TasksRequest where
  assignee : Option String
  limit : Nat
  offset : Nat
deriving DecidableEq, Repr

/-- Modelled from the spec (section 4.3, task deadline filtering): retain
only tasks whose deadline is present and falls within the configured
inclusive bound(s); a task with no deadline is excluded whenever any bound
is active (this predicate is only applied when one is). -/
def taskInRange (deadline_start deadline_end : Option PyDate) (t : CrmTask) : Bool :=
  match t.deadline_at with
  | none => false
  | some d =>
    (match deadline_start with
     | some s => PyDate.leB s d
     | none => true) &&
    (match deadline_end with
     | some e => PyDate.leB d e
     | none => true)

/-- Modelled from the spec (section 4.2, `listTasks`): the remote request
carries the server-side assignee filter only; when any deadline bound is
supplied it asks for the fixed page limit=500, offset=0 regardless of the
caller's limit, otherwise it passes the caller's limit through. -/
def listTasksRequest (assignee : Option String) (deadline_start deadline_end : Option PyDate)
    (limit : Nat) : TasksRequest :=
  if deadline_start.isSome || deadline_end.isSome then
    { assignee := assignee, limit := 500, offset := 0 }
  else
    { assignee := assignee, limit := limit, offset := 0 }

/-- Modelled from the spec (sections 4.2/4.3): given the page the remote
service returned, apply the client-side deadline range filter and then
re-truncate to the caller's limit; with no deadline bound the server-limited
page is returned as is. -/
def listTasksResult (deadline_start deadline_end : Option PyDate) (limit : Nat)
    (page : List CrmTask) : List CrmTask :=
  if deadline_start.isSome || deadline_end.isSome then
    (page.filter (taskInRange deadline_start deadline_end)).take limit
  else
    page

/-- The retention predicate of claim C6 exactly as the claim words it: the
lower-cased needle occurs in the lower-cased first name, last name, trimmed
"first last" concatenation, or email address. -/
def specMatchesClaim (needle : String) (m : Member) : Bool :=
  substrB needle (strLower m.first_name) ||
  substrB needle (strLower m.last_name) ||
  substrB needle (strLower (strTrim (m.first_name ++ " " ++ m.last_name))) ||
  substrB needle (strLower m.email_address)

/-- The retention predicate as the code actually has it (amended claim C6):
each field is whitespace-trimmed before the case-insensitive containment
test, and the "first last" concatenation is built from the trimmed parts. -/
def specMatchesTrimmed (needle : String) (m : Member) : Bool :=
  substrB needle (strLower (strTrim m.first_name)) ||
  substrB needle (strLower (strTrim m.last_name)) ||
  substrB needle (strLower (strTrim (strTrim m.first_name ++ " " ++ strTrim m.last_name))) ||
  substrB needle (strLower (strTrim m.email_address))

lemma memberMatches_eq_specMatchesTrimmed (needle : String) (m : Member) :
    memberMatches needle m = specMatchesTrimmed needle m := rfl

/-- C1: with 0 active fragments the payload has no filter key (it is exactly
the limit object); with exactly 1 active fragment the filter is that
fragment unwrapped; with 2 or more the filter is a "$and" conjunction of
exactly the active fragments in supplied order; and company search supplies
its fragments in the order name, domain, owner, reminder range. -/
theorem buildSearchPayload_cases :
    (∀ (fs : List (Option JValue)) (limit : Int), activeFilters fs = [] →
        buildSearchPayload fs limit = .obj [("limit", .num limit)]) ∧
    (∀ (fs : List (Option JValue)) (limit : Int) (f : JValue), activeFilters fs = [f] →
        buildSearchPayload fs limit = .obj [("limit", .num limit), ("filter", f)]) ∧
    (∀ (fs : List (Option JValue)) (limit : Int), 2 ≤ (activeFilters fs).length →
        buildSearchPayload fs limit =
          .obj [("limit", .num limit),
                ("filter", .obj [("$and", .arr (activeFilters fs))])]) ∧
    (∀ (n d o s : String) (sd : PyDate) (limit : Int), n ≠ "" → d ≠ "" → o ≠ "" →
        dateFromIso s = .ok sd →
        searchCompanies (some n) (some d) (some o) (some s) none limit =
          .ok (.obj [("limit", .num limit), ("filter", .obj [("$and", .arr
            [.obj [("name", .obj [("$contains", .str n)])],
             .obj [("domains", .obj [("domain", .obj [("$eq", .str d)])])],
             .obj [("owner", .obj [("referenced_actor_type", .str "workspace-member"),
                                   ("referenced_actor_id", .str o)])],
             .obj [("reminder", .obj [("$gte", .str sd.isoformat)])]])])])) := by
  refine ⟨?_, ?_, ?_, ?_⟩
  · intro fs limit h
    unfold buildSearchPayload
    rw [h]
  · intro fs limit f h
    unfold buildSearchPayload
    rw [h]
  · intro fs limit h
    cases hA : activeFilters fs with
    | nil => rw [hA] at h; simp at h
    | cons a t =>
      cases t with
      | nil => rw [hA] at h; simp at h
      | cons b t2 =>
        unfold buildSearchPayload
        rw [hA]
  · intro n d o s sd limit hn hd ho hs
    simp [searchCompanies, parseOptDate, hs, reminderRangeInvalid, buildSearchPayload,
      activeFilters, nameFilter, domainFilter, ownerFilter, reminderFilter, pyTruthy,
      hn, hd, ho]

/-- Witness for C1: concrete instances of all four cases. -/
theorem buildSearchPayload_cases_witness :
    buildSearchPayload [none, none, none, none] 15 = .obj [("limit", .num 15)] ∧
    buildSearchPayload [some (JValue.obj [("k", JValue.str "v")]), none] 5 =
      .obj [("limit", .num 5), ("filter", JValue.obj [("k", JValue.str "v")])] ∧
    buildSearchPayload
      [some (JValue.obj [("a", JValue.num 1)]), some (JValue.obj [("b", JValue.num 2)])] 3 =
      .obj [("limit", .num 3), ("filter", .obj [("$and", .arr
        [JValue.obj [("a", JValue.num 1)], JValue.obj [("b", JValue.num 2)]])])] ∧
    searchCompanies (some "Acme") (some "acme.com") (some "m1") (some "2024-01-02") none 15 =
      .ok (.obj [("limit", .num 15), ("filter", .obj [("$and", .arr
        [.obj [("name", .obj [("$contains", .str "Acme")])],
         .obj [("domains", .obj [("domain", .obj [("$eq", .str "acme.com")])])],
         .obj [("owner", .obj [("referenced_actor_type", .str "workspace-member"),
                               ("referenced_actor_id", .str "m1")])],
         .obj [("reminder", .obj [("$gte", .str (PyDate.isoformat ⟨2024, 1, 2⟩))])]])])]) :=
  ⟨buildSearchPayload_cases.1 _ _ rfl,
   buildSearchPayload_cases.2.1 _ _ _ rfl,
   buildSearchPayload_cases.2.2.1 _ _ (by decide),
   buildSearchPayload_cases.2.2.2 "Acme" "acme.com" "m1" "2024-01-02" ⟨2024, 1, 2⟩ 15
     (by decide) (by decide) (by decide) rfl⟩

/-- C2: if both reminder bounds parse and the start date is after the end
date, `search_companies` fails with the validation error; no payload is
produced (so none is POSTed). -/
theorem searchCompanies_invalid_range (name domain owner_id : Option String)
    (s e : String) (sd ed : PyDate) (limit : Int)
    (hs : dateFromIso s = .ok sd) (he : dateFromIso e = .ok ed)
    (hlt : PyDate.ltB ed sd = true) :
    searchCompanies name domain owner_id (some s) (some e) limit =
      .error "reminder_start must be <= reminder_end" := by
  simp [searchCompanies, parseOptDate, hs, he, reminderRangeInvalid, hlt]

/-- Witness for C2: the spec's own example call. -/
theorem searchCompanies_invalid_range_witness :
    searchCompanies none none none (some "2024-12-31") (some "2024-01-01") 15 =
      .error "reminder_start must be <= reminder_end" :=
  searchCompanies_invalid_range none none none "2024-12-31" "2024-01-01"
    ⟨2024, 12, 31⟩ ⟨2024, 1, 1⟩ 15 rfl rfl rfl

/-- C3: for each detail lookup, a remote 404 yields the specific not-found
error naming the id, and any other non-2xx status yields the generic API
error carrying the numeric status and the raw body. -/
theorem detailLookups_error_mapping :
    (∀ (id : String) (resp : HttpResponse), resp.status = 404 →
        getCompanyDetails id resp = .error ("Company not found: " ++ id) ∧
        getPersonDetails id resp = .error ("Person not found: " ++ id) ∧
        getWorkspaceMember id resp = .error ("Workspace member not found: " ++ id)) ∧
    (∀ (id : String) (resp : HttpResponse), isSuccess resp.status = false →
        resp.status ≠ 404 →
        getCompanyDetails id resp =
          .error ("Attio API error: " ++ toString resp.status ++ " - " ++ resp.text) ∧
        getPersonDetails id resp =
          .error ("Attio API error: " ++ toString resp.status ++ " - " ++ resp.text) ∧
        getWorkspaceMember id resp =
          .error ("Attio API error: " ++ toString resp.status ++ " - " ++ resp.text)) := by
  constructor
  · intro id resp h
    refine ⟨?_, ?_, ?_⟩ <;>
      simp [getCompanyDetails, getPersonDetails, getWorkspaceMember, isSuccess, h]
  · intro id resp hfail h404
    refine ⟨?_, ?_, ?_⟩ <;>
      simp [getCompanyDetails, getPersonDetails, getWorkspaceMember, hfail, h404]

/-- Witness for C3: a 404 and a 500 response at a concrete id. -/
theorem detailLookups_error_mapping_witness :
    (getCompanyDetails "missing-id" ⟨404, "nf", .null⟩ =
        .error ("Company not found: " ++ "missing-id") ∧
      getPersonDetails "missing-id" ⟨404, "nf", .null⟩ =
        .error ("Person not found: " ++ "missing-id") ∧
      getWorkspaceMember "missing-id" ⟨404, "nf", .null⟩ =
        .error ("Workspace member not found: " ++ "missing-id")) ∧
    (getCompanyDetails "x" ⟨500, "boom", .null⟩ =
        .error ("Attio API error: " ++ toString (500 : Nat) ++ " - " ++ "boom") ∧
      getPersonDetails "x" ⟨500, "boom", .null⟩ =
        .error ("Attio API error: " ++ toString (500 : Nat) ++ " - " ++ "boom") ∧
      getWorkspaceMember "x" ⟨500, "boom", .null⟩ =
        .error ("Attio API error: " ++ toString (500 : Nat) ++ " - " ++ "boom")) :=
  ⟨detailLookups_error_mapping.1 "missing-id" ⟨404, "nf", .null⟩ rfl,
   detailLookups_error_mapping.2 "x" ⟨500, "boom", .null⟩ (by decide) (by decide)⟩

/-- C4: the notes lookups turn a remote 404 into the empty collection
`{"data": []}` and do not raise (the result is an `Except.ok`). -/
theorem notes_404_empty_collection (id : String) (resp : HttpResponse)
    (h : resp.status = 404) :
    getCompanyNotes id resp = .ok (.obj [("data", .arr [])]) ∧
    getPersonNotes id resp = .ok (.obj [("data", .arr [])]) := by
  constructor <;> simp [getCompanyNotes, getPersonNotes, getNotes, isSuccess, h]

/-- Witness for C4: the spec's `getCompanyNotes("missing-id")` example. -/
theorem notes_404_empty_collection_witness :
    getCompanyNotes "missing-id" ⟨404, "nf", .null⟩ = .ok (.obj [("data", .arr [])]) ∧
    getPersonNotes "missing-id" ⟨404, "nf", .null⟩ = .ok (.obj [("data", .arr [])]) :=
  notes_404_empty_collection "missing-id" ⟨404, "nf", .null⟩ rfl

/-- C5 (modelled from the spec, `list_tasks` being absent from src/): with
at least one deadline bound the remote request is the fixed page limit=500,
offset=0 regardless of the caller's limit; the result is the range-filtered
page truncated to the caller's limit; and every returned task has a present
deadline lying within the inclusive bound(s). -/
theorem listTasks_deadline_bound (assignee : Option String)
    (ds de : Option PyDate) (limit : Nat) (page : List CrmTask)
    (h : ds.isSome = true ∨ de.isSome = true) :
    listTasksRequest assignee ds de limit = ⟨assignee, 500, 0⟩ ∧
    listTasksResult ds de limit page =
      (page.filter (taskInRange ds de)).take limit ∧
    ∀ t ∈ listTasksResult ds de limit page, ∃ d, t.deadline_at = some d ∧
      (∀ sd, ds = some sd → PyDate.leB sd d = true) ∧
      (∀ ed, de = some ed → PyDate.leB d ed = true) := by
  have hb : (ds.isSome || de.isSome) = true := by
    rcases h with h | h <;> simp [h]
  refine ⟨by simp [listTasksRequest, hb], by simp [listTasksResult, hb], ?_⟩
  intro t ht
  rw [listTasksResult, if_pos hb] at ht
  have ht' := List.mem_of_mem_take ht
  have hmem := List.mem_filter.mp ht'
  have hr : taskInRange ds de t = true := hmem.2
  rw [taskInRange] at hr
  cases hd : t.deadline_at with
  | none => rw [hd] at hr; exact absurd hr (by simp)
  | some d =>
    rw [hd] at hr
    refine ⟨d, rfl, ?_, ?_⟩
    · intro sd hsd
      rw [hsd] at hr
      simp only [Bool.and_eq_true] at hr
      exact hr.1
    · intro ed hed
      rw [hed] at hr
      simp only [Bool.and_eq_true] at hr
      exact hr.2

/-- Witness for C5: the page of test_list_tasks_with_deadline_start_only. -/
theorem listTasks_deadline_bound_witness :
    listTasksRequest (some "member-1") (some ⟨2024, 2, 1⟩) none 10 =
      ⟨some "member-1", 500, 0⟩ ∧
    listTasksResult (some ⟨2024, 2, 1⟩) none 10
        [⟨"task-1", some ⟨2024, 1, 15⟩⟩, ⟨"task-2", some ⟨2024, 2, 10⟩⟩, ⟨"task-3", none⟩] =
      (List.filter (taskInRange (some ⟨2024, 2, 1⟩) none)
        [⟨"task-1", some ⟨2024, 1, 15⟩⟩, ⟨"task-2", some ⟨2024, 2, 10⟩⟩,
         ⟨"task-3", none⟩]).take 10 ∧
    ∀ t ∈ listTasksResult (some ⟨2024, 2, 1⟩) none 10
        [⟨"task-1", some ⟨2024, 1, 15⟩⟩, ⟨"task-2", some ⟨2024, 2, 10⟩⟩, ⟨"task-3", none⟩],
      ∃ d, t.deadline_at = some d ∧
        (∀ sd, (some (⟨2024, 2, 1⟩ : PyDate)) = some sd → PyDate.leB sd d = true) ∧
        (∀ ed, (none : Option PyDate) = some ed → PyDate.leB d ed = true) :=
  listTasks_deadline_bound (some "member-1") (some ⟨2024, 2, 1⟩) none 10
    [⟨"task-1", some ⟨2024, 1, 15⟩⟩, ⟨"task-2", some ⟨2024, 2, 10⟩⟩, ⟨"task-3", none⟩]
    (Or.inl rfl)

/-- Counterexample for C6: the member with first name "A " (trailing space)
satisfies the claim's retention predicate for the needle " " (the lower-cased
needle occurs in the lower-cased, untrimmed first name "a "), yet the tool
filters it out, because the code strips each field before matching. -/
theorem listMembers_contains_counterexample :
    specMatchesClaim " " ⟨"A ", "", ""⟩ = true ∧
    listWorkspaceMembersTool (.ok [⟨"A ", "", ""⟩]) 100 (some " ") =
      jsonDumps (.obj [("data", .arr [])]) :=
  ⟨rfl, rfl⟩

/-- C6 as amended: with a non-empty needle, the tool keeps exactly the
members whose whitespace-trimmed, lower-cased first name, last name,
"first last" concatenation of the trimmed parts, or email address contains
the lower-cased needle (logical OR), filtering the whole fetched collection
in order before truncating to the limit. -/
theorem listMembers_contains_filter (members : List Member) (needle : String)
    (limit : Int) (hn : needle ≠ "") (hl : 0 ≤ limit) :
    listWorkspaceMembersTool (.ok members) limit (some needle) =
      jsonDumps (.obj [("data", .arr
        (((members.filter (specMatchesTrimmed (strLower needle))).take limit.toNat).map
          Member.toJValue))]) := by
  rw [listWorkspaceMembersTool]
  rw [if_neg hn]
  rw [if_neg (not_lt.mpr hl)]
  rfl

/-- Witness for C6 (amended): the test fixture's two members and the spec's
"ALICE@" needle; only Alice survives the filter. -/
theorem listMembers_contains_filter_witness :
    listWorkspaceMembersTool
        (.ok [⟨"Alice", "Example", "alice@example.com"⟩,
              ⟨"Bob", "Example", "bob@example.com"⟩]) 100 (some "ALICE@") =
      jsonDumps (.obj [("data", .arr
        ((([⟨"Alice", "Example", "alice@example.com"⟩,
            ⟨"Bob", "Example", "bob@example.com"⟩].filter
              (specMatchesTrimmed (strLower "ALICE@"))).take (100 : Int).toNat).map
          Member.toJValue))]) :=
  listMembers_contains_filter
    [⟨"Alice", "Example", "alice@example.com"⟩, ⟨"Bob", "Example", "bob@example.com"⟩]
    "ALICE@" 100 (by decide) (by decide)

/-- Counterexample for C7: with a negative limit the surfaced result still
depends on the outcome of the member fetch — a failing fetch wins over the
validation error — so the validation is not performed before the network
call, contradicting "surfaced immediately, with no network call made". -/
theorem listMembers_limit_after_fetch_counterexample :
    listWorkspaceMembersTool (.error "network unreachable") (-1) none =
      "Error: network unreachable" ∧
    listWorkspaceMembersTool (.ok []) (-1) none = "Error: limit must be >= 0" ∧
    ("Error: network unreachable" : String) ≠ "Error: limit must be >= 0" :=
  ⟨rfl, rfl, by decide⟩

/-- C7 as amended: when the member fetch succeeds, a negative limit makes
the tool fail validation with the descriptive error (returned as an
"Error: " string, not as a partial or garbage list); the validation runs
after the fetch and the contains-filter, not before the network call. -/
theorem listMembers_negative_limit (members : List Member)
    (contains : Option String) (limit : Int) (h : limit < 0) :
    listWorkspaceMembersTool (.ok members) limit contains =
      "Error: limit must be >= 0" := by
  cases contains with
  | none => simp [listWorkspaceMembersTool, h]
  | some c =>
    by_cases hc : c = "" <;> simp [listWorkspaceMembersTool, h, hc]

/-- Witness for C7 (amended): the test's `limit=-1` call. -/
theorem listMembers_negative_limit_witness :
    listWorkspaceMembersTool
        (.ok [⟨"Alice", "Example", "alice@example.com"⟩]) (-1) none =
      "Error: limit must be >= 0" :=
  listMembers_negative_limit [⟨"Alice", "Example", "alice@example.com"⟩] none (-1)
    (by decide)

/-- C8: a reminder lower bound emits a "$gte" condition, an upper bound a
"$lte" condition, and both live inside the single field-level "reminder"
fragment: with another predicate active the conjunction has exactly two
members, the bounds never appearing as separate top-level predicates. -/
theorem reminder_single_fragment :
    (∀ (s : String) (sd : PyDate) (limit : Int), dateFromIso s = .ok sd →
        searchCompanies none none none (some s) none limit =
          .ok (.obj [("limit", .num limit),
            ("filter", .obj [("reminder", .obj [("$gte", .str sd.isoformat)])])])) ∧
    (∀ (e : String) (ed : PyDate) (limit : Int), dateFromIso e = .ok ed →
        searchCompanies none none none none (some e) limit =
          .ok (.obj [("limit", .num limit),
            ("filter", .obj [("reminder", .obj [("$lte", .str ed.isoformat)])])])) ∧
    (∀ (n s e : String) (sd ed : PyDate) (limit : Int), n ≠ "" →
        dateFromIso s = .ok sd → dateFromIso e = .ok ed → PyDate.ltB ed sd = false →
        searchCompanies (some n) none none (some s) (some e) limit =
          .ok (.obj [("limit", .num limit), ("filter", .obj [("$and", .arr
            [.obj [("name", .obj [("$contains", .str n)])],
             .obj [("reminder", .obj [("$gte", .str sd.isoformat),
                                      ("$lte", .str ed.isoformat)])]])])])) := by
  refine ⟨?_, ?_, ?_⟩
  · intro s sd limit hs
    simp [searchCompanies, parseOptDate, hs, reminderRangeInvalid, buildSearchPayload,
      activeFilters, nameFilter, domainFilter, ownerFilter, reminderFilter, pyTruthy]
  · intro e ed limit he
    simp [searchCompanies, parseOptDate, he, reminderRangeInvalid, buildSearchPayload,
      activeFilters, nameFilter, domainFilter, ownerFilter, reminderFilter, pyTruthy]
  · intro n s e sd ed limit hn hs he hlt
    simp [searchCompanies, parseOptDate, hs, he, reminderRangeInvalid, hlt,
      buildSearchPayload, activeFilters, nameFilter, domainFilter, ownerFilter,
      reminderFilter, pyTruthy, hn]

/-- Witness for C8: concrete single-bound and double-bound calls. -/
theorem reminder_single_fragment_witness :
    searchCompanies none none none (some "2024-01-02") none 15 =
      .ok (.obj [("limit", .num 15), ("filter", .obj [("reminder", .obj
        [("$gte", .str (PyDate.isoformat ⟨2024, 1, 2⟩))])])]) ∧
    searchCompanies none none none none (some "2024-03-04") 15 =
      .ok (.obj [("limit", .num 15), ("filter", .obj [("reminder", .obj
        [("$lte", .str (PyDate.isoformat ⟨2024, 3, 4⟩))])])]) ∧
    searchCompanies (some "Acme") none none (some "2024-02-01") (some "2024-02-29") 10 =
      .ok (.obj [("limit", .num 10), ("filter", .obj [("$and", .arr
        [.obj [("name", .obj [("$contains", .str "Acme")])],
         .obj [("reminder", .obj [("$gte", .str (PyDate.isoformat ⟨2024, 2, 1⟩)),
                                  ("$lte", .str (PyDate.isoformat ⟨2024, 2, 29⟩))])]])])]) :=
  ⟨reminder_single_fragment.1 "2024-01-02" ⟨2024, 1, 2⟩ 15 rfl,
   reminder_single_fragment.2.1 "2024-03-04" ⟨2024, 3, 4⟩ 15 rfl,
   reminder_single_fragment.2.2 "Acme" "2024-02-01" "2024-02-29"
     ⟨2024, 2, 1⟩ ⟨2024, 2, 29⟩ 10 (by decide) rfl rfl rfl⟩

lemma renderResult_faithful (r : Except String JValue) :
    (∀ e, r = .error e → renderResult r = "Error: " ++ e) ∧
    (∀ v, r = .ok v → renderResult r = jsonDumps v) := by
  constructor <;> rintro x rfl <;> rfl

/-- C9: for every tool, a failure raised by the underlying client
computation is returned as the string "Error: " followed by that failure's
own message (never re-raised), and a success is returned as the JSON
serialization of the operation's result; the member-listing tool's own
limit-validation failure is likewise rendered as an "Error: " string. -/
theorem tools_textual_results :
    (∀ (name domain owner_id rs re : Option String) (limit : Int) (resp : HttpResponse),
        (∀ e, ((searchCompanies name domain owner_id rs re limit).bind
            fun _ => queryResponse resp) = .error e →
          searchCompaniesTool name domain owner_id rs re limit resp = "Error: " ++ e) ∧
        (∀ v, ((searchCompanies name domain owner_id rs re limit).bind
            fun _ => queryResponse resp) = .ok v →
          searchCompaniesTool name domain owner_id rs re limit resp = jsonDumps v)) ∧
    (∀ (id : String) (resp : HttpResponse),
        (∀ e, getCompanyDetails id resp = .error e →
          getCompanyDetailsTool id resp = "Error: " ++ e) ∧
        (∀ v, getCompanyDetails id resp = .ok v →
          getCompanyDetailsTool id resp = jsonDumps v)) ∧
    (∀ (id : String) (resp : HttpResponse),
        (∀ e, getCompanyNotes id resp = .error e →
          getCompanyNotesTool id resp = "Error: " ++ e) ∧
        (∀ v, getCompanyNotes id resp = .ok v →
          getCompanyNotesTool id resp = jsonDumps v)) ∧
    (∀ (query : String) (email : Option String) (limit : Int) (resp : HttpResponse),
        (∀ e, queryResponse resp = .error e →
          searchPeopleTool query email limit resp = "Error: " ++ e) ∧
        (∀ v, queryResponse resp = .ok v →
          searchPeopleTool query email limit resp = jsonDumps v)) ∧
    (∀ (id : String) (resp : HttpResponse),
        (∀ e, getPersonDetails id resp = .error e →
          getPersonDetailsTool id resp = "Error: " ++ e) ∧
        (∀ v, getPersonDetails id resp = .ok v →
          getPersonDetailsTool id resp = jsonDumps v)) ∧
    (∀ (id : String) (resp : HttpResponse),
        (∀ e, getPersonNotes id resp = .error e →
          getPersonNotesTool id resp = "Error: " ++ e) ∧
        (∀ v, getPersonNotes id resp = .ok v →
          getPersonNotesTool id resp = jsonDumps v)) ∧
    (∀ (id : String) (resp : HttpResponse),
        (∀ e, getWorkspaceMember id resp = .error e →
          getWorkspaceMemberTool id resp = "Error: " ++ e) ∧
        (∀ v, getWorkspaceMember id resp = .ok v →
          getWorkspaceMemberTool id resp = jsonDumps v)) ∧
    (∀ (fetch : Except String (List Member)) (email : String),
        (∀ e, fetch = .error e →
          searchWorkspaceMemberByEmailTool fetch email = "Error: " ++ e) ∧
        (∀ members, fetch = .ok members →
          searchWorkspaceMemberByEmailTool fetch email =
            jsonDumps (match members.find? (emailMatch email) with
              | some m => .obj [("data", m.toJValue)]
              | none => .obj [("error",
                  .str ("No workspace member found with email: " ++ email))]))) ∧
    (∀ (fetch : Except String (List Member)) (limit : Int) (contains : Option String),
        (∀ e, fetch = .error e →
          listWorkspaceMembersTool fetch limit contains = "Error: " ++ e) ∧
        (∀ members, fetch = .ok members → limit < 0 →
          listWorkspaceMembersTool fetch limit contains =
            "Error: " ++ "limit must be >= 0") ∧
        (∀ members, fetch = .ok members → 0 ≤ limit →
          listWorkspaceMembersTool fetch limit contains =
            jsonDumps (.obj [("data", .arr (((match contains with
              | some c => if c = "" then members
                          else members.filter (memberMatches (strLower c))
              | none => members).take limit.toNat).map Member.toJValue))]))) := by
  refine ⟨fun _ _ _ _ _ _ _ => renderResult_faithful _,
    fun _ _ => renderResult_faithful _, fun _ _ => renderResult_faithful _,
    fun _ _ _ _ => renderResult_faithful _, fun _ _ => renderResult_faithful _,
    fun _ _ => renderResult_faithful _, fun _ _ => renderResult_faithful _, ?_, ?_⟩
  · intro fetch email
    constructor
    · rintro e rfl
      rfl
    · rintro members rfl
      cases hf : members.find? (emailMatch email) with
      | none => simp [searchWorkspaceMemberByEmailTool, hf]
      | some m => simp [searchWorkspaceMemberByEmailTool, hf]
  · intro fetch limit contains
    refine ⟨?_, ?_, ?_⟩
    · rintro e rfl
      rfl
    · rintro members rfl h
      have hmsg : ("Error: " ++ "limit must be >= 0" : String) =
          "Error: limit must be >= 0" := rfl
      rw [hmsg]
      cases contains with
      | none => simp [listWorkspaceMembersTool, h]
      | some c => by_cases hc : c = "" <;> simp [listWorkspaceMembersTool, h, hc]
    · rintro members rfl h
      cases contains with
      | none => simp [listWorkspaceMembersTool, not_lt.mpr h]
      | some c => by_cases hc : c = "" <;> simp [listWorkspaceMembersTool, not_lt.mpr h, hc]

/-- Witness for C9: each branch exercised at concrete inputs — a failing and
a succeeding client call for the query/detail/notes tools, and the fetch
failure, validation failure and success of the member tools. -/
theorem tools_textual_results_witness :
    searchCompaniesTool none none none none none 15 ⟨500, "boom", .null⟩ =
      "Error: " ++ ("Attio API error: " ++ toString (500 : Nat) ++ " - " ++ "boom") ∧
    searchCompaniesTool none none none none none 15 ⟨200, "", .obj [("data", .arr [])]⟩ =
      jsonDumps (.obj [("data", .arr [])]) ∧
    getCompanyDetailsTool "missing-id" ⟨404, "nf", .null⟩ =
      "Error: " ++ ("Company not found: " ++ "missing-id") ∧
    getCompanyDetailsTool "c1" ⟨200, "", .obj [("data", .null)]⟩ =
      jsonDumps (.obj [("data", .null)]) ∧
    getCompanyNotesTool "c1" ⟨500, "boom", .null⟩ =
      "Error: " ++ ("Attio API error: " ++ toString (500 : Nat) ++ " - " ++ "boom") ∧
    searchPeopleTool "Jo" none 10 ⟨200, "", .obj [("data", .arr [])]⟩ =
      jsonDumps (.obj [("data", .arr [])]) ∧
    getPersonDetailsTool "missing-id" ⟨404, "nf", .null⟩ =
      "Error: " ++ ("Person not found: " ++ "missing-id") ∧
    getPersonNotesTool "p1" ⟨200, "", .obj [("data", .arr [])]⟩ =
      jsonDumps (.obj [("data", .arr [])]) ∧
    getWorkspaceMemberTool "missing-id" ⟨404, "nf", .null⟩ =
      "Error: " ++ ("Workspace member not found: " ++ "missing-id") ∧
    searchWorkspaceMemberByEmailTool (.error "boom") "a@b.co" = "Error: " ++ "boom" ∧
    searchWorkspaceMemberByEmailTool (.ok []) "a@b.co" =
      jsonDumps (match ([] : List Member).find? (emailMatch "a@b.co") with
        | some m => .obj [("data", m.toJValue)]
        | none => .obj [("error",
            .str ("No workspace member found with email: " ++ "a@b.co"))]) ∧
    listWorkspaceMembersTool (.error "boom") 100 none = "Error: " ++ "boom" ∧
    listWorkspaceMembersTool (.ok []) (-2) none = "Error: " ++ "limit must be >= 0" ∧
    listWorkspaceMembersTool (.ok []) 100 none =
      jsonDumps (.obj [("data", .arr (((match (none : Option String) with
        | some c => if c = "" then ([] : List Member)
                    else List.filter (memberMatches (strLower c)) []
        | none => ([] : List Member)).take (100 : Int).toNat).map Member.toJValue))]) :=
  ⟨(tools_textual_results.1 none none none none none 15 ⟨500, "boom", .null⟩).1
      ("Attio API error: " ++ toString (500 : Nat) ++ " - " ++ "boom") rfl,
   (tools_textual_results.1 none none none none none 15
      ⟨200, "", .obj [("data", .arr [])]⟩).2 (.obj [("data", .arr [])]) rfl,
   (tools_textual_results.2.1 "missing-id" ⟨404, "nf", .null⟩).1
      ("Company not found: " ++ "missing-id") rfl,
   (tools_textual_results.2.1 "c1" ⟨200, "", .obj [("data", .null)]⟩).2
      (.obj [("data", .null)]) rfl,
   (tools_textual_results.2.2.1 "c1" ⟨500, "boom", .null⟩).1
      ("Attio API error: " ++ toString (500 : Nat) ++ " - " ++ "boom") rfl,
   (tools_textual_results.2.2.2.1 "Jo" none 10 ⟨200, "", .obj [("data", .arr [])]⟩).2
      (.obj [("data", .arr [])]) rfl,
   (tools_textual_results.2.2.2.2.1 "missing-id" ⟨404, "nf", .null⟩).1
      ("Person not found: " ++ "missing-id") rfl,
   (tools_textual_results.2.2.2.2.2.1 "p1" ⟨200, "", .obj [("data", .arr [])]⟩).2
      (.obj [("data", .arr [])]) rfl,
   (tools_textual_results.2.2.2.2.2.2.1 "missing-id" ⟨404, "nf", .null⟩).1
      ("Workspace member not found: " ++ "missing-id") rfl,
   (tools_textual_results.2.2.2.2.2.2.2.1 (.error "boom") "a@b.co").1 "boom" rfl,
   (tools_textual_results.2.2.2.2.2.2.2.1 (.ok []) "a@b.co").2 [] rfl,
   (tools_textual_results.2.2.2.2.2.2.2.2 (.error "boom") 100 none).1 "boom" rfl,
   (tools_textual_results.2.2.2.2.2.2.2.2 (.ok []) (-2) none).2.1 [] rfl (by decide),
   (tools_textual_results.2.2.2.2.2.2.2.2 (.ok []) 100 none).2.2 [] rfl (by decide)⟩


lemma find?_first {α : Type} (p : α → Bool) (pre post : List α) (m : α)
    (hpre : ∀ x ∈ pre, p x = false) (hm : p m = true) :
    (pre ++ m :: post).find? p = some m := by
  induction pre with
  | nil => simp [List.find?_cons_of_pos, hm]
  | cons a t ih =>
    have ha : p a = false := hpre a (List.mem_cons_self a t)
    rw [List.cons_append, List.find?_cons_of_neg _ (by simp [ha])]
    exact ih fun x hx => hpre x (List.mem_cons_of_mem a hx)

lemma errorString_ne_jsonDumps_obj (e : String) (fs : List (String × JValue)) :
    "Error: " ++ e ≠ jsonDumps (.obj fs) := by
  intro h
  have h1 : ("Error: " ++ e).data.head? = some 'E' := by
    cases e with | mk l => rfl
  have h2 : ∀ s : String, (("\x7b" ++ s) ++ "\x7d").data.head? = some (Char.ofNat 123) := by
    intro s; cases s with | mk l => rfl
  rw [h, show jsonDumps (.obj fs) = ("\x7b" ++ jsonDumpsObj fs) ++ "\x7d" from rfl,
    h2 (jsonDumpsObj fs)] at h1
  exact absurd h1 (by decide)

/-- C10: the by-email tool returns the first member (in collection order)
whose email matches case-insensitively, wrapped as a "data" object; with no
match it returns a JSON "error" object naming the email — a JSON body, never
an "Error: "-prefixed string. -/
theorem searchMemberByEmail_cases :
    (∀ (pre post : List Member) (m : Member) (email : String),
        (∀ x ∈ pre, emailMatch email x = false) → emailMatch email m = true →
        searchWorkspaceMemberByEmailTool (.ok (pre ++ m :: post)) email =
          jsonDumps (.obj [("data", m.toJValue)])) ∧
    (∀ (members : List Member) (email : String),
        (∀ x ∈ members, emailMatch email x = false) →
        searchWorkspaceMemberByEmailTool (.ok members) email =
          jsonDumps (.obj [("error",
            .str ("No workspace member found with email: " ++ email))]) ∧
        ∀ e, searchWorkspaceMemberByEmailTool (.ok members) email ≠ "Error: " ++ e) := by
  constructor
  · intro pre post m email hpre hm
    have hf := find?_first (emailMatch email) pre post m hpre hm
    simp [searchWorkspaceMemberByEmailTool, hf]
  · intro members email hnone
    have hf : members.find? (emailMatch email) = none :=
      List.find?_eq_none.mpr fun x hx => by simp [hnone x hx]
    have heq : searchWorkspaceMemberByEmailTool (.ok members) email =
        jsonDumps (.obj [("error",
          .str ("No workspace member found with email: " ++ email))]) := by
      simp [searchWorkspaceMemberByEmailTool, hf]
    refine ⟨heq, ?_⟩
    intro e h
    rw [heq] at h
    exact errorString_ne_jsonDumps_obj e _ h.symm

/-- Witness for C10: Alice is found first past a non-matching Bob, and a
missing email yields the JSON error object. -/
theorem searchMemberByEmail_cases_witness :
    searchWorkspaceMemberByEmailTool
        (.ok [⟨"Bob", "Example", "bob@example.com"⟩,
              ⟨"Alice", "Example", "alice@example.com"⟩]) "ALICE@EXAMPLE.COM" =
      jsonDumps (.obj [("data",
        Member.toJValue ⟨"Alice", "Example", "alice@example.com"⟩)]) ∧
    searchWorkspaceMemberByEmailTool
        (.ok [⟨"Bob", "Example", "bob@example.com"⟩]) "carol@example.com" =
      jsonDumps (.obj [("error",
        .str ("No workspace member found with email: " ++ "carol@example.com"))]) :=
  ⟨searchMemberByEmail_cases.1 [⟨"Bob", "Example", "bob@example.com"⟩] []
      ⟨"Alice", "Example", "alice@example.com"⟩ "ALICE@EXAMPLE.COM"
      (by decide) (by decide),
   (searchMemberByEmail_cases.2 [⟨"Bob", "Example", "bob@example.com"⟩]
      "carol@example.com" (by decide)).1⟩
